import Mathlib

/-!
Verification of the scoring/decision core of the loan-eligibility app.

JavaScript numbers are modelled as exact rationals; JS objects become
structures; a JS method call on a receiver that lacks the method throws a
TypeError, modelled by an `Except String` result; functions that cannot
throw are total Lean functions.
-/

/-- Model of String.prototype.toLowerCase: lower-case the character list.
(The built-in String.toLower is the same map but is not kernel-reducible,
which concrete witnesses need.) -/
def jsToLowerCase (s : String) : String := String.mk (s.data.map Char.toLower)

/-- Substring occurrence test on the character lists; used to state that a
message does or does not mention a figure. -/
def strContains (s pat : String) : Bool :=
  (List.range (s.data.length + 1)).any
    (fun i => decide (((s.data.drop i).take pat.data.length) = pat.data))

/-! ### UserFinancialProfile (src/services/UserFinancialProfile.js) -/

/-- The financial profile entity: the seven raw attributes of the
constructor in UserFinancialProfile.js (lines 24-32). -/
structure UserFinancialProfile where
  monthlyIncome : ℚ
  monthlyExpenses : ℚ
  existingDebts : ℚ
  age : ℚ
  employmentType : String
  employmentYears : ℚ
  requestedLoanAmount : ℚ
deriving DecidableEq

namespace UserFinancialProfile

/-- calculateDTI (lines 39-46): 100 when income is 0, otherwise
(expenses + debts/12) / income * 100, capped at 100. -/
def calculateDTI (p : UserFinancialProfile) : ℚ :=
  if p.monthlyIncome = 0 then 100
  else
    let totalMonthlyDebt := p.monthlyExpenses + p.existingDebts / 12
    let dti := totalMonthlyDebt / p.monthlyIncome * 100
    min dti 100

/-- calculateDisposableIncome (lines 53-58). -/
def calculateDisposableIncome (p : UserFinancialProfile) : ℚ :=
  let monthlyDebtPayment := p.existingDebts / 12
  let disposableIncome := p.monthlyIncome - p.monthlyExpenses - monthlyDebtPayment
  max disposableIncome 0

/-- calculateSavingsRate (lines 65-72). -/
def calculateSavingsRate (p : UserFinancialProfile) : ℚ :=
  if p.monthlyIncome = 0 then 0
  else
    let disposableIncome := p.calculateDisposableIncome
    let savingsRate := disposableIncome / p.monthlyIncome * 100
    max savingsRate 0

/-- calculateLoanToIncomeRatio (lines 79-84). -/
def calculateLoanToIncomeRatio (p : UserFinancialProfile) : ℚ :=
  let annualIncome := p.monthlyIncome * 12
  if annualIncome = 0 then 0
  else p.requestedLoanAmount / annualIncome

/-- getEmploymentStabilityScore (lines 91-116): base by employment type
plus min(employmentYears * 2, 20), capped at 100. -/
def getEmploymentStabilityScore (p : UserFinancialProfile) : ℚ :=
  let baseScore : ℚ :=
    if jsToLowerCase p.employmentType = "permanent" then 80
    else if jsToLowerCase p.employmentType = "contract" then 60
    else if jsToLowerCase p.employmentType = "self-employed" then 50
    else if jsToLowerCase p.employmentType = "unemployed" then 0
    else 40
  let yearsBonus := min (p.employmentYears * 2) 20
  min (baseScore + yearsBonus) 100

/-- getAgeRiskScore (lines 124-132). -/
def getAgeRiskScore (p : UserFinancialProfile) : ℚ :=
  if p.age < 21 then 70
  else if p.age < 25 then 50
  else if p.age < 30 then 30
  else if p.age < 50 then 10
  else if p.age < 60 then 20
  else if p.age < 65 then 40
  else 60

end UserFinancialProfile

/-- The pair returned by validate (lines 169-172). -/
structure ValidationResult where
  isValid : Bool
  errors : List String
deriving DecidableEq

/-- validate (lines 138-173): seven checks, each pushing its message; the
push sequence is modelled by concatenation in source order. The function
is total: it never throws. -/
def UserFinancialProfile.validate (p : UserFinancialProfile) : ValidationResult :=
  let errors : List String :=
    (if p.monthlyIncome ≤ 0 then ["Monthly income must be greater than 0"] else [])
    ++ (if p.monthlyExpenses < 0 then ["Monthly expenses cannot be negative"] else [])
    ++ (if p.existingDebts < 0 then ["Existing debts cannot be negative"] else [])
    ++ (if p.age < 18 then ["Age must be at least 18"] else [])
    ++ (if p.age > 100 then ["Please enter a valid age"] else [])
    ++ (if p.employmentYears < 0 then ["Employment years cannot be negative"] else [])
    ++ (if p.requestedLoanAmount ≤ 0 then ["Requested loan amount must be greater than 0"] else [])
  { isValid := errors.isEmpty, errors := errors }

/-- The seven validation rules in the listed order, each a violation test
paired with its message, written from the words of the spec (section 4.1)
for comparison with the source translation above. -/
def specValidationRules : List ((UserFinancialProfile → Bool) × String) :=
  [ (fun p => p.monthlyIncome ≤ 0, "Monthly income must be greater than 0"),
    (fun p => p.monthlyExpenses < 0, "Monthly expenses cannot be negative"),
    (fun p => p.existingDebts < 0, "Existing debts cannot be negative"),
    (fun p => p.age < 18, "Age must be at least 18"),
    (fun p => p.age > 100, "Please enter a valid age"),
    (fun p => p.employmentYears < 0, "Employment years cannot be negative"),
    (fun p => p.requestedLoanAmount ≤ 0, "Requested loan amount must be greater than 0") ]

/-- The error messages of exactly the violated rules, in the listed
order (spec section 4.1). -/
def specValidationErrors (p : UserFinancialProfile) : List String :=
  (specValidationRules.filter (fun r => r.1 p)).map (fun r => r.2)

/-! ### ScoringStrategy (src/services/ScoringStrategy.js)

The three concrete strategies read the profile through accessors
(getTotalIncome, getDebtToIncomeRatio, getSavingsToIncomeRatio,
getEmploymentStability, getDisposableIncome, getNetWorth) and, for the
aggressive one, the properties employmentStatus and yearsAtJob. Each
strategy body is translated twice: a pure core over the numeric inputs the
body reads (the interface the strategy expects), and the method
calculateScore itself, whose accessor calls are resolved against the
actual method table of UserFinancialProfile - a call to a missing method
throws a TypeError, modelled in Except. Missing properties read as
undefined, modelled by Option: every comparison against undefined is
false. -/

/-- JS method dispatch on a UserFinancialProfile: the class defines exactly
these six number-returning methods (plus validate, toJSON and
getFinancialHealthSummary, which no strategy calls); any other method name
is not a function, so calling it throws a TypeError. -/
def UserFinancialProfile.callMethod (p : UserFinancialProfile) (methodName : String) :
    Except String ℚ :=
  if methodName = "calculateDTI" then .ok p.calculateDTI
  else if methodName = "calculateDisposableIncome" then .ok p.calculateDisposableIncome
  else if methodName = "calculateSavingsRate" then .ok p.calculateSavingsRate
  else if methodName = "calculateLoanToIncomeRatio" then .ok p.calculateLoanToIncomeRatio
  else if methodName = "getEmploymentStabilityScore" then .ok p.getEmploymentStabilityScore
  else if methodName = "getAgeRiskScore" then .ok p.getAgeRiskScore
  else .error ("TypeError: profile." ++ methodName ++ " is not a function")

/-- ConservativeScoringStrategy.calculateScore body (lines 32-67), as a
pure function of the values the body reads from the profile. -/
def conservativeCore (income dti savingsRatio stability age : ℚ) : ℚ :=
  let s1 : ℚ :=
    if 100000 ≤ income then 30 else if 50000 ≤ income then 20
    else if 30000 ≤ income then 10 else if 15000 ≤ income then 5 else 0
  let s2 : ℚ :=
    if dti < 20 then 25 else if dti < 30 then 20
    else if dti < 40 then 10 else if dti < 50 then 5 else 0
  let s3 : ℚ :=
    if 30 ≤ savingsRatio then 20 else if 20 ≤ savingsRatio then 15
    else if 10 ≤ savingsRatio then 10 else if 5 ≤ savingsRatio then 5 else 0
  let s4 : ℚ := ((⌊stability * (0.15 : ℚ)⌋ : ℤ) : ℚ)
  let s5 : ℚ :=
    if 35 ≤ age ∧ age ≤ 55 then 10
    else if 25 ≤ age ∧ age < 60 then 7
    else if 21 ≤ age then 3 else 0
  min (max (s1 + s2 + s3 + s4 + s5) 0) 100

/-- StandardScoringStrategy.calculateScore body (lines 79-115). -/
def standardCore (income dti disposable stability netWorth : ℚ) : ℚ :=
  let s1 : ℚ :=
    if 80000 ≤ income then 25 else if 40000 ≤ income then 18
    else if 20000 ≤ income then 12 else if 10000 ≤ income then 6 else 0
  let s2 : ℚ :=
    if dti < 25 then 30 else if dti < 35 then 22
    else if dti < 45 then 15 else if dti < 60 then 8 else 0
  let s3 : ℚ :=
    if 30000 ≤ disposable then 20 else if 15000 ≤ disposable then 15
    else if 5000 ≤ disposable then 10 else if 0 < disposable then 5 else 0
  let s4 : ℚ := ((⌊stability * (0.15 : ℚ)⌋ : ℤ) : ℚ)
  let s5 : ℚ :=
    if 500000 ≤ netWorth then 10 else if 200000 ≤ netWorth then 8
    else if 50000 ≤ netWorth then 5 else if 0 < netWorth then 3 else 0
  min (max (s1 + s2 + s3 + s4 + s5) 0) 100

/-- AggressiveScoringStrategy.calculateScore body (lines 127-164);
employmentStatus and yearsAtJob are read as plain properties, so a profile
without them supplies undefined (none), and every comparison against
undefined is false. -/
def aggressiveCore (income dti disposable : ℚ) (employmentStatus : Option String)
    (yearsAtJob : Option ℚ) (age : ℚ) : ℚ :=
  let base : ℚ := 20
  let s1 : ℚ :=
    if 50000 ≤ income then 20 else if 25000 ≤ income then 15
    else if 15000 ≤ income then 10 else if 8000 ≤ income then 5 else 0
  let s2 : ℚ :=
    if dti < 35 then 25 else if dti < 50 then 18
    else if dti < 70 then 10 else if dti < 90 then 5 else 0
  let s3 : ℚ :=
    if 10000 ≤ disposable then 15 else if 5000 ≤ disposable then 12
    else if 2000 ≤ disposable then 8 else if 0 < disposable then 5 else 0
  let s4 : ℚ :=
    match employmentStatus with
    | some st => if st = "employed" then 15 else if st = "self-employed" then 10 else 0
    | none => 0
  let s5 : ℚ :=
    match yearsAtJob with
    | some y => if 3 ≤ y then 10 else if 1 ≤ y then 7 else if (0.5 : ℚ) ≤ y then 4 else 0
    | none => 0
  let s6 : ℚ :=
    if 25 ≤ age ∧ age ≤ 60 then 15 else if 21 ≤ age then 10 else 0
  min (max (base + s1 + s2 + s3 + s4 + s5 + s6) 0) 100

/-- ConservativeScoringStrategy.calculateScore applied to a
UserFinancialProfile: each accessor the body calls is dispatched against
the actual method table; the first missing one throws. -/
def ConservativeScoringStrategy.calculateScore (p : UserFinancialProfile) :
    Except String ℚ := do
  let income ← p.callMethod ("getTotalIncome")
  let dti ← p.callMethod ("getDebtToIncomeRatio")
  let savingsRatio ← p.callMethod ("getSavingsToIncomeRatio")
  let stability ← p.callMethod ("getEmploymentStability")
  .ok (conservativeCore income dti savingsRatio stability p.age)

/-- StandardScoringStrategy.calculateScore applied to a
UserFinancialProfile. -/
def StandardScoringStrategy.calculateScore (p : UserFinancialProfile) :
    Except String ℚ := do
  let income ← p.callMethod ("getTotalIncome")
  let dti ← p.callMethod ("getDebtToIncomeRatio")
  let disposable ← p.callMethod ("getDisposableIncome")
  let stability ← p.callMethod ("getEmploymentStability")
  let netWorth ← p.callMethod ("getNetWorth")
  .ok (standardCore income dti disposable stability netWorth)

/-- AggressiveScoringStrategy.calculateScore applied to a
UserFinancialProfile; the employmentStatus and yearsAtJob properties do not
exist on the class, so they read as undefined (none). -/
def AggressiveScoringStrategy.calculateScore (p : UserFinancialProfile) :
    Except String ℚ := do
  let income ← p.callMethod ("getTotalIncome")
  let dti ← p.callMethod ("getDebtToIncomeRatio")
  let disposable ← p.callMethod ("getDisposableIncome")
  .ok (aggressiveCore income dti disposable none none p.age)

/-! ### ScoringStrategyFactory (ScoringStrategy.js lines 176-221) -/

/-- The three concrete strategy classes of ScoringStrategy.js. -/
inductive StrategyClass where
  | conservative
  | standard
  | aggressive
deriving DecidableEq

/-- ScoringStrategyFactory.getStrategy (lines 182-190). -/
def ScoringStrategyFactory.getStrategy (loanAmount : ℚ) : StrategyClass :=
  if 500000 ≤ loanAmount then .conservative
  else if 100000 ≤ loanAmount then .standard
  else .aggressive

/-- ScoringStrategyFactory.getStrategyByName (lines 197-208): switch on
the lower-cased name, defaulting to Standard. -/
def ScoringStrategyFactory.getStrategyByName (strategyName : String) : StrategyClass :=
  if jsToLowerCase strategyName = "conservative" then .conservative
  else if jsToLowerCase strategyName = "standard" then .standard
  else if jsToLowerCase strategyName = "aggressive" then .aggressive
  else .standard

/-! ### CreditScoreCalculator (src/services/CreditScoreCalculator.js)

The calculator imports ConservativeStrategy, BalancedStrategy,
AggressiveStrategy and AIBasedStrategy from ScoringStrategy.js; none of
those classes exists in the repository (the file exports
ConservativeScoringStrategy, StandardScoringStrategy and
AggressiveScoringStrategy instead). Modelled from the spec: a strategy
object, as the calculator consumes one, is a name together with a
profile-to-score function; the spec (sections 4.2 and 9) leaves the
AI-Based weight table open, so the strategy functions stay parameters and
every theorem below holds for all of them. -/

/-- A strategy object as the calculator consumes it: getName and
calculateScore. Modelled from the spec: the concrete classes the
calculator imports are missing from the source, so the scoring function is
an arbitrary parameter. -/
structure StrategyFn where
  name : String
  score : UserFinancialProfile → ℚ

/-- Impact labels of the score breakdown (getScoreBreakdown, lines
145-173). The display strings (value and label fields) are presentation
only and are not modelled; the computed impact of each of the five
entries is kept. -/
structure Breakdown where
  dtiImpact : String
  incomeImpact : String
  employmentImpact : String
  savingsImpact : String
  ageImpact : String
deriving DecidableEq

/-- The object calculateScore returns (lines 43-71): either the failure
shape {success:false, errors, score:300} or the success shape with score,
riskLevel, rating, strategy name and breakdown. -/
inductive ScoreResult where
  | failure (errors : List String) (score : ℚ)
  | ok (score : ℚ) (riskLevel : String) (rating : String) (strategyName : String)
      (breakdown : Breakdown)
deriving DecidableEq

namespace CreditScoreCalculator

/-- getRiskLevel (lines 102-108). -/
def getRiskLevel (score : ℚ) : String :=
  if 750 ≤ score then "Very Low"
  else if 700 ≤ score then "Low"
  else if 650 ≤ score then "Moderate"
  else if 600 ≤ score then "High"
  else "Very High"

/-- getScoreRating (lines 115-121). -/
def getScoreRating (score : ℚ) : String :=
  if 800 ≤ score then "Exceptional"
  else if 740 ≤ score then "Very Good"
  else if 670 ≤ score then "Good"
  else if 580 ≤ score then "Fair"
  else "Poor"

/-- getImpactLevel (lines 182-192); thresholds is the [bad, okay, good]
triple. -/
def getImpactLevel (value t0 t1 t2 : ℚ) (lowerIsBetter : Bool) : String :=
  if lowerIsBetter then
    if value < t0 then "Positive"
    else if value < t1 then "Neutral"
    else "Negative"
  else
    if t2 < value then "Positive"
    else if t1 < value then "Neutral"
    else "Negative"

/-- getAgeImpact (lines 199-203). -/
def getAgeImpact (age : ℚ) : String :=
  if 30 ≤ age ∧ age ≤ 50 then "Positive"
  else if (25 ≤ age ∧ age < 30) ∨ (50 < age ∧ age ≤ 60) then "Neutral"
  else "Negative"

/-- getApprovalProbability (lines 210-217). -/
def getApprovalProbability (score : ℚ) : ℚ :=
  if 750 ≤ score then 95
  else if 700 ≤ score then 85
  else if 650 ≤ score then 70
  else if 600 ≤ score then 50
  else if 550 ≤ score then 30
  else 15

/-- getScoreBreakdown (lines 145-173), impacts only; the score argument is
accepted and unused exactly as in the source. -/
def getScoreBreakdown (p : UserFinancialProfile) (score : ℚ) : Breakdown :=
  let _ := score
  { dtiImpact := getImpactLevel p.calculateDTI 20 36 50 true
    incomeImpact := getImpactLevel p.monthlyIncome 3000 5000 10000 false
    employmentImpact := getImpactLevel p.getEmploymentStabilityScore 40 60 80 false
    savingsImpact := getImpactLevel p.calculateSavingsRate 5 10 20 false
    ageImpact := getAgeImpact p.age }

/-- calculateScore (lines 43-71) with the active strategy made explicit:
validate first and return the sentinel failure, else apply the strategy
and classify. -/
def scoreResult (strategy : StrategyFn) (p : UserFinancialProfile) : ScoreResult :=
  let validation := p.validate
  if validation.isValid then
    let score := strategy.score p
    .ok score (getRiskLevel score) (getScoreRating score) strategy.name
      (getScoreBreakdown p score)
  else
    .failure validation.errors 300

end CreditScoreCalculator

/-- The calculator object: its one piece of state is the current strategy
(constructor, lines 25-28). -/
structure CreditScoreCalculator where
  strategy : StrategyFn

namespace CreditScoreCalculator

/-- setStrategy (lines 34-36). -/
def setStrategy (c : CreditScoreCalculator) (s : StrategyFn) : CreditScoreCalculator :=
  { c with strategy := s }

/-- The calculateScore method (lines 43-71): reads the current strategy
and writes no field, so the calculator state comes back unchanged. -/
def calculateScore (c : CreditScoreCalculator) (p : UserFinancialProfile) :
    ScoreResult × CreditScoreCalculator :=
  (scoreResult c.strategy p, c)

/-- calculateAllScores (lines 78-95): for each of the four strategies the
source instantiates (Conservative, Balanced, Aggressive, AI-Based - all
four classes missing from the source, so they arrive here as parameters),
set it as the current strategy, score, and record the result under the
strategy name. -/
def calculateAllScores (cons bal aggr ai : StrategyFn) (c : CreditScoreCalculator)
    (p : UserFinancialProfile) : List (String × ScoreResult) × CreditScoreCalculator :=
  let strategies := [cons, bal, aggr, ai]
  strategies.foldl
    (fun acc s =>
      let c1 := acc.2.setStrategy s
      let r := c1.calculateScore p
      (acc.1 ++ [(s.name, r.1)], r.2))
    ([], c)

end CreditScoreCalculator

/-! ### LoanDecisionService (src/services/LoanDecisionService.js) -/

/-- Model of Number.prototype.toFixed(1) on a rational: one decimal digit,
rounding half away from the smaller value. Only the digits matter for the
explanation strings that embed a DTI percentage. -/
def toFixed1 (q : ℚ) : String :=
  let n : ℤ := ⌊q * 10 + (0.5 : ℚ)⌋
  let sign := if n < 0 then "-" else ""
  let m := n.natAbs
  sign ++ toString (m / 10) ++ "." ++ toString (m % 10)

/-- The three lists generateExplanation builds (lines 79-172). -/
structure Explanation where
  reasons : List String
  positiveFactors : List String
  negativeFactors : List String
deriving DecidableEq

/-- generateExplanation (lines 79-172): six analysis steps push onto the
factor and reason lists in source order; the final approve/deny summary is
then unshifted, i.e. prepended to reasons. Each step is one branch chain
producing its (positive, negative, reasons) contribution. -/
def LoanDecisionService.generateExplanation (p : UserFinancialProfile) (score : ℚ)
    (approved : Bool) : Explanation :=
  let _ := score
  let dti := p.calculateDTI
  let step1 : List String × List String × List String :=
    if dti < 20 then
      (["Excellent debt-to-income ratio"], [],
        ["Your debt-to-income ratio is excellent (under 20%)"])
    else if dti < 36 then
      (["Good debt-to-income ratio"], [],
        ["Your debt-to-income ratio is within acceptable range"])
    else if dti < 50 then
      ([], ["High debt-to-income ratio"],
        ["Your debt-to-income ratio is high (" ++ toFixed1 dti ++ "%)"])
    else
      ([], ["Very high debt burden"],
        ["Your debt-to-income ratio is too high (" ++ toFixed1 dti ++ "%)"])
  let step2 : List String × List String × List String :=
    if 5000 < p.monthlyIncome then
      (["Strong income level"], [], ["Your monthly income is strong"])
    else if 3000 < p.monthlyIncome then
      (["Adequate income level"], [], [])
    else
      ([], ["Low income level"], ["Your income level may limit loan approval"])
  let employmentScore := p.getEmploymentStabilityScore
  let step3 : List String × List String × List String :=
    if 70 < employmentScore then
      (["Stable employment history"], [], ["Your employment is stable and secure"])
    else if 50 < employmentScore then
      (["Acceptable employment status"], [], [])
    else if 0 < employmentScore then
      ([], ["Limited employment stability"], ["Your employment stability could be stronger"])
    else
      ([], ["No current employment"], ["Currently unemployed - major risk factor"])
  let savingsRate := p.calculateSavingsRate
  let step4 : List String × List String × List String :=
    if 20 < savingsRate then
      (["Excellent savings discipline"], [], ["You demonstrate excellent financial discipline"])
    else if 10 < savingsRate then
      (["Good savings habits"], [], [])
    else if 0 < savingsRate then
      ([], ["Limited savings"], [])
    else
      ([], ["No savings capacity"], ["No disposable income for savings - high risk"])
  let step5 : List String × List String × List String :=
    if 30 ≤ p.age ∧ p.age ≤ 50 then
      (["Optimal age range for borrowing"], [], [])
    else if p.age < 25 then
      ([], ["Young borrower - limited credit history expected"], [])
    else if 60 < p.age then
      ([], ["Near retirement age - repayment concerns"], [])
    else
      ([], [], [])
  let loanToIncome := p.calculateLoanToIncomeRatio
  let step6 : List String × List String × List String :=
    if 4 < loanToIncome then
      ([], ["Loan amount too high relative to income"],
        ["Requested loan amount is very high compared to your income"])
    else if 3 < loanToIncome then
      ([], ["High loan-to-income ratio"], [])
    else if loanToIncome < 2 then
      (["Reasonable loan amount requested"], [], [])
    else
      ([], [], [])
  let summary : String :=
    if approved then "✅ Loan APPROVED - Credit score meets minimum requirements"
    else "❌ Loan DENIED - Credit score below minimum threshold (580)"
  { reasons := summary ::
      (step1.2.2 ++ step2.2.2 ++ step3.2.2 ++ step4.2.2 ++ step5.2.2 ++ step6.2.2)
    positiveFactors :=
      step1.1 ++ step2.1 ++ step3.1 ++ step4.1 ++ step5.1 ++ step6.1
    negativeFactors :=
      step1.2.1 ++ step2.2.1 ++ step3.2.1 ++ step4.2.1 ++ step5.2.1 ++ step6.2.1 }

/-- One improvement recommendation (getImprovementRecommendations,
lines 179-241). -/
structure ImprovementRec where
  title : String
  description : String
  priority : String
  icon : String
deriving DecidableEq

/-- getImprovementRecommendations (lines 179-241): six conditional pushes
in source order. -/
def LoanDecisionService.getImprovementRecommendations (p : UserFinancialProfile) :
    List ImprovementRec :=
  let dti := p.calculateDTI
  let r1 : List ImprovementRec :=
    if 36 < dti then
      [{ title := "Reduce Your Debt-to-Income Ratio"
         description := "Your DTI is " ++ toFixed1 dti ++
           "%. Try to reduce expenses or pay down existing debts to get below 36%."
         priority := "high", icon := "trending-down" }]
    else []
  let r2 : List ImprovementRec :=
    if p.monthlyIncome < 3000 then
      [{ title := "Increase Your Income"
         description := "Consider additional income sources or negotiate a raise to improve your financial position."
         priority := "high", icon := "trending-up" }]
    else []
  let employmentScore := p.getEmploymentStabilityScore
  let r3 : List ImprovementRec :=
    if employmentScore < 50 then
      [{ title := "Improve Employment Stability"
         description := "Seek permanent employment or build a longer employment history."
         priority := "medium", icon := "briefcase" }]
    else []
  let savingsRate := p.calculateSavingsRate
  let r4 : List ImprovementRec :=
    if savingsRate < 10 then
      [{ title := "Build Your Savings"
         description := "Try to save at least 10% of your monthly income to demonstrate financial discipline."
         priority := "medium", icon := "wallet" }]
    else []
  let r5 : List ImprovementRec :=
    if 0 < p.existingDebts then
      [{ title := "Pay Down Existing Debts"
         description := "Focus on reducing your existing debt burden before applying for new loans."
         priority := "high", icon := "card" }]
    else []
  let loanToIncome := p.calculateLoanToIncomeRatio
  let r6 : List ImprovementRec :=
    if 3 < loanToIncome then
      [{ title := "Request a Lower Loan Amount"
         description := "Consider requesting a smaller loan amount relative to your annual income."
         priority := "medium", icon := "cash" }]
    else []
  r1 ++ r2 ++ r3 ++ r4 ++ r5 ++ r6

/-- getInterestRateRange (lines 310-316), as the [minRate, maxRate] pair. -/
def LoanDecisionService.getInterestRateRange (score : ℚ) : ℚ × ℚ :=
  if 750 ≤ score then ((4.5 : ℚ), (6.5 : ℚ))
  else if 700 ≤ score then ((6.5 : ℚ), (8.5 : ℚ))
  else if 650 ≤ score then ((8.5 : ℚ), (11.5 : ℚ))
  else if 600 ≤ score then ((11.5 : ℚ), (14.5 : ℚ))
  else ((14.5 : ℚ), (18.5 : ℚ))

/-- getMaxLoanAmount (lines 324-342): the source initializes the
multiplier to 1, but the if/else chain reassigns it on every path, so the
initial 1 is dead; floor of the conservative minimum. -/
def LoanDecisionService.getMaxLoanAmount (p : UserFinancialProfile) (score : ℚ) : ℚ :=
  let annualIncome := p.monthlyIncome * 12
  let disposableIncome := p.calculateDisposableIncome
  let multiplier : ℚ :=
    if 750 ≤ score then 4
    else if 700 ≤ score then (3.5 : ℚ)
    else if 650 ≤ score then 3
    else if 600 ≤ score then (2.5 : ℚ)
    else 2
  let maxByIncome := annualIncome * multiplier
  let maxByDisposable := disposableIncome * 36
  ((⌊min maxByIncome maxByDisposable⌋ : ℤ) : ℚ)

/-- One loan product option (getLoanRecommendations, lines 249-303). The
source renders the shifted interest band of each product as a display
string; the numeric endpoints of that band are modelled instead. -/
structure LoanOption where
  type : String
  description : String
  maxAmount : ℚ
  rateLow : ℚ
  rateHigh : ℚ
  term : String
  icon : String
  suitability : String
deriving DecidableEq

/-- getLoanRecommendations (lines 249-303): Personal Loan always, Home
Loan when monthly income exceeds 5000, Auto Loan always, Business Loan
when self-employed, in source push order. -/
def LoanDecisionService.getLoanRecommendations (p : UserFinancialProfile) (score : ℚ) :
    List LoanOption :=
  let maxAmount := LoanDecisionService.getMaxLoanAmount p score
  let interestRange := LoanDecisionService.getInterestRateRange score
  let lo := interestRange.1
  let hi := interestRange.2
  let personal : LoanOption :=
    { type := "Personal Loan", description := "Unsecured loan for any purpose"
      maxAmount := maxAmount, rateLow := lo, rateHigh := hi
      term := "1-5 years", icon := "person"
      suitability := if 700 ≤ score then "Highly Suitable" else "Suitable" }
  let home : List LoanOption :=
    if 5000 < p.monthlyIncome then
      [{ type := "Home Loan", description := "Mortgage for home purchase"
         maxAmount := maxAmount * 5, rateLow := lo - 1, rateHigh := hi - 1
         term := "15-30 years", icon := "home"
         suitability := if 680 ≤ score then "Highly Suitable" else "Suitable" }]
    else []
  let auto : LoanOption :=
    { type := "Auto Loan", description := "Loan for vehicle purchase"
      maxAmount := min (maxAmount * 2) (p.monthlyIncome * 48)
      rateLow := lo - (0.5 : ℚ), rateHigh := hi - (0.5 : ℚ)
      term := "3-7 years", icon := "car"
      suitability := if 650 ≤ score then "Suitable" else "Fair" }
  let business : List LoanOption :=
    if jsToLowerCase p.employmentType = "self-employed" then
      [{ type := "Business Loan", description := "Loan for business purposes"
         maxAmount := maxAmount * (1.5 : ℚ), rateLow := lo + 1, rateHigh := hi + 2
         term := "1-10 years", icon := "briefcase"
         suitability := if 670 ≤ score then "Suitable" else "Consider" }]
    else []
  [personal] ++ home ++ [auto] ++ business

/-- A recommendation list entry of makeDecision: an improvement
recommendation when denied or invalid, a loan product when approved. -/
inductive RecommendationItem where
  | improvement (r : ImprovementRec)
  | loanOption (o : LoanOption)
deriving DecidableEq

/-- The decision object (makeDecision, lines 27-70). The invalid branch
returns an object without riskLevel, factor lists, rate range, max amount
or breakdown; those fields are Options, none meaning the key is absent. -/
structure Decision where
  approved : Bool
  confidence : ℚ
  score : ℚ
  riskLevel : Option String
  reasons : List String
  positiveFactors : Option (List String)
  negativeFactors : Option (List String)
  recommendations : List RecommendationItem
  interestRateRange : Option (ℚ × ℚ)
  maxLoanAmount : Option ℚ
  breakdown : Option Breakdown

/-- makeDecision (lines 27-70). The service constructs its calculator with
an AIBasedStrategy; that class is missing from the source and its weights
are an open slot in the spec (sections 4.2 and 9), so the strategy is a
parameter here (modelled from the spec). -/
def LoanDecisionService.makeDecision (ai : StrategyFn) (p : UserFinancialProfile) :
    Decision :=
  match CreditScoreCalculator.scoreResult ai p with
  | .failure errors _ =>
    { approved := false, confidence := 0, score := 300, riskLevel := none
      reasons := errors, positiveFactors := none, negativeFactors := none
      recommendations :=
        (LoanDecisionService.getImprovementRecommendations p).map .improvement
      interestRateRange := none, maxLoanAmount := none, breakdown := none }
  | .ok score riskLevel _ _ breakdown =>
    let approvalProbability := CreditScoreCalculator.getApprovalProbability score
    let approved := decide (580 ≤ score)
    let explanation := LoanDecisionService.generateExplanation p score approved
    let recommendations :=
      if approved then
        (LoanDecisionService.getLoanRecommendations p score).map .loanOption
      else
        (LoanDecisionService.getImprovementRecommendations p).map .improvement
    { approved := approved, confidence := approvalProbability, score := score
      riskLevel := some riskLevel, reasons := explanation.reasons
      positiveFactors := some explanation.positiveFactors
      negativeFactors := some explanation.negativeFactors
      recommendations := recommendations
      interestRateRange := some (LoanDecisionService.getInterestRateRange score)
      maxLoanAmount := some (LoanDecisionService.getMaxLoanAmount p score)
      breakdown := some breakdown }

/-- Interest-rate table written from the words of the spec (section 4.4
item 6), for comparison with the source translation. -/
def specInterestRateRange (score : ℚ) : ℚ × ℚ :=
  if 750 ≤ score then ((4.5 : ℚ), (6.5 : ℚ))
  else if 700 ≤ score then ((6.5 : ℚ), (8.5 : ℚ))
  else if 650 ≤ score then ((8.5 : ℚ), (11.5 : ℚ))
  else if 600 ≤ score then ((11.5 : ℚ), (14.5 : ℚ))
  else ((14.5 : ℚ), (18.5 : ℚ))

/-- Score multiplier table written from the words of the spec (section
4.4 item 7). -/
def specScoreMultiplier (score : ℚ) : ℚ :=
  if 750 ≤ score then 4
  else if 700 ≤ score then (3.5 : ℚ)
  else if 650 ≤ score then 3
  else if 600 ≤ score then (2.5 : ℚ)
  else 2

/-- Max loan amount written from the words of the spec (section 4.4 item
7): min(annualIncome x multiplier, disposableIncome x 36), floored to an
integer. -/
def specMaxLoanAmount (p : UserFinancialProfile) (score : ℚ) : ℚ :=
  ((⌊min (p.monthlyIncome * 12 * specScoreMultiplier score)
      (p.calculateDisposableIncome * 36)⌋ : ℤ) : ℚ)

/-! ### Theorems -/

/-- Claim C1 (code bug): contrary to the claim and to the own doc comments
of ScoringStrategy.js (param UserFinancialProfile, returns a number in
0-100), every one of the three implemented strategies throws on every
UserFinancialProfile: the first accessor each body calls, getTotalIncome,
is not a method of the profile class, so the call raises a TypeError
before any score is produced. -/
theorem claim1_strategy_dispatch_fails (p : UserFinancialProfile) :
    ConservativeScoringStrategy.calculateScore p =
      .error ("TypeError: profile.getTotalIncome is not a function") ∧
    StandardScoringStrategy.calculateScore p =
      .error ("TypeError: profile.getTotalIncome is not a function") ∧
    AggressiveScoringStrategy.calculateScore p =
      .error ("TypeError: profile.getTotalIncome is not a function") :=
  ⟨rfl, rfl, rfl⟩

set_option maxHeartbeats 1000000 in
/-- Claim C3: validate collects exactly the messages of the violated rules
among the seven checks, in the listed order; isValid holds iff no error
was collected; and a nonpositive monthly income always yields isValid
false with the income message present. The translation is total, so
validate never throws. -/
theorem claim3_validate_exact (p : UserFinancialProfile) :
    (p.validate).errors = specValidationErrors p ∧
    ((p.validate).isValid = true ↔ (p.validate).errors = []) ∧
    (p.monthlyIncome ≤ 0 →
      (p.validate).isValid = false ∧
      "Monthly income must be greater than 0" ∈ (p.validate).errors) := by
  refine ⟨?_, ?_, ?_⟩
  · simp only [UserFinancialProfile.validate, specValidationErrors, specValidationRules,
      List.filter_cons, List.filter_nil, decide_eq_true_eq]
    split_ifs <;> rfl
  · simp only [UserFinancialProfile.validate]
    exact List.isEmpty_iff
  · intro h
    simp [UserFinancialProfile.validate, h]

/-- Witness for C3 at a concrete profile with monthly income -5. -/
theorem claim3_witness :
    ((UserFinancialProfile.mk (-5) 100 0 30 ("permanent") 2 1000).validate).isValid = false ∧
    "Monthly income must be greater than 0" ∈
      ((UserFinancialProfile.mk (-5) 100 0 30 ("permanent") 2 1000).validate).errors :=
  (claim3_validate_exact _).2.2 (by norm_num)

/-- Claim C6: with nonnegative expenses and debts, the DTI lies in [0,100]
whenever the income is nonnegative, the savings rate and disposable income
are never negative, and a zero income forces DTI 100, savings rate 0 and
disposable income 0; every function involved is total, so no division
error can occur. -/
theorem claim6_ratio_bounds (p : UserFinancialProfile)
    (hE : 0 ≤ p.monthlyExpenses) (hD : 0 ≤ p.existingDebts) :
    (0 ≤ p.monthlyIncome → 0 ≤ p.calculateDTI ∧ p.calculateDTI ≤ 100) ∧
    0 ≤ p.calculateSavingsRate ∧
    0 ≤ p.calculateDisposableIncome ∧
    (p.monthlyIncome = 0 →
      p.calculateDTI = 100 ∧ p.calculateSavingsRate = 0 ∧
      p.calculateDisposableIncome = 0) := by
  have hD12 : 0 ≤ p.existingDebts / 12 := div_nonneg hD (by norm_num)
  refine ⟨?_, ?_, ?_, ?_⟩
  · intro hI
    unfold UserFinancialProfile.calculateDTI
    by_cases h0 : p.monthlyIncome = 0
    · simp [h0]
    · have hpos : 0 < p.monthlyIncome := lt_of_le_of_ne hI (Ne.symm h0)
      have hnum : 0 ≤ p.monthlyExpenses + p.existingDebts / 12 := add_nonneg hE hD12
      have hdti : 0 ≤ (p.monthlyExpenses + p.existingDebts / 12) / p.monthlyIncome * 100 :=
        mul_nonneg (div_nonneg hnum (le_of_lt hpos)) (by norm_num)
      simp only [h0, if_false]
      exact ⟨le_min hdti (by norm_num), min_le_right _ _⟩
  · unfold UserFinancialProfile.calculateSavingsRate
    split_ifs
    · exact le_refl 0
    · exact le_max_right _ _
  · exact le_max_right _ _
  · intro h0
    refine ⟨by simp [UserFinancialProfile.calculateDTI, h0],
      by simp [UserFinancialProfile.calculateSavingsRate, h0], ?_⟩
    unfold UserFinancialProfile.calculateDisposableIncome
    rw [h0]
    rw [max_eq_right (by linarith)]

/-- Witness for C6 at a concrete zero-income profile. -/
theorem claim6_witness :
    (UserFinancialProfile.mk 0 500 600 40 ("contract") 1 100).calculateDTI = 100 ∧
    (UserFinancialProfile.mk 0 500 600 40 ("contract") 1 100).calculateSavingsRate = 0 ∧
    (UserFinancialProfile.mk 0 500 600 40 ("contract") 1 100).calculateDisposableIncome = 0 :=
  (claim6_ratio_bounds _ (by norm_num) (by norm_num)).2.2.2 rfl

/-- Claim C4: on a profile that fails validation the calculator returns
the sentinel failure {success:false, errors, score:300}; the result does
not depend on the strategy at all, so the active strategy is never
invoked, and the translation is total, so nothing is thrown. -/
theorem claim4_invalid_sentinel (strat : StrategyFn) (p : UserFinancialProfile)
    (h : (p.validate).isValid = false) :
    CreditScoreCalculator.scoreResult strat p =
      ScoreResult.failure (p.validate).errors 300 ∧
    (∀ strat2 : StrategyFn,
      CreditScoreCalculator.scoreResult strat2 p =
        CreditScoreCalculator.scoreResult strat p) := by
  constructor
  · unfold CreditScoreCalculator.scoreResult
    simp [h]
  · intro strat2
    unfold CreditScoreCalculator.scoreResult
    simp [h]

/-- Witness for C4 at the spec scenario-3 profile (age 17), under an
arbitrary concrete strategy. -/
theorem claim4_witness :
    CreditScoreCalculator.scoreResult { name := "AI-Based", score := fun _ => 720 }
      (UserFinancialProfile.mk 5000 1000 0 17 ("permanent") 2 10000) =
      ScoreResult.failure ["Age must be at least 18"] 300 := by
  rw [(claim4_invalid_sentinel { name := "AI-Based", score := fun _ => 720 }
    (UserFinancialProfile.mk 5000 1000 0 17 ("permanent") 2 10000) (by decide)).1]
  decide

/-- Any score at most 100 classifies as the bottom risk tier. -/
theorem riskLevel_of_le100 (s : ℚ) (h : s ≤ 100) :
    CreditScoreCalculator.getRiskLevel s = "Very High" := by
  unfold CreditScoreCalculator.getRiskLevel
  split_ifs <;> first | rfl | linarith

/-- Any score at most 100 classifies as the bottom rating. -/
theorem rating_of_le100 (s : ℚ) (h : s ≤ 100) :
    CreditScoreCalculator.getScoreRating s = "Poor" := by
  unfold CreditScoreCalculator.getScoreRating
  split_ifs <;> first | rfl | linarith

/-- Any score at most 100 gets the bottom approval probability. -/
theorem probability_of_le100 (s : ℚ) (h : s ≤ 100) :
    CreditScoreCalculator.getApprovalProbability s = 15 := by
  unfold CreditScoreCalculator.getApprovalProbability
  split_ifs <;> first | rfl | linarith

/-- Claim C5: every implemented strategy body clamps its result to at most
100, while the classification thresholds live on the 300-850 domain;
consequently any successfully scored profile lands in risk level Very
High, rating Poor, approval probability 15, and the 580 approval gate can
never pass. -/
theorem claim5_scale_mismatch :
    (∀ income dti savingsRatio stability age : ℚ,
      conservativeCore income dti savingsRatio stability age ≤ 100) ∧
    (∀ income dti disposable stability netWorth : ℚ,
      standardCore income dti disposable stability netWorth ≤ 100) ∧
    (∀ (income dti disposable : ℚ) (employmentStatus : Option String)
      (yearsAtJob : Option ℚ) (age : ℚ),
      aggressiveCore income dti disposable employmentStatus yearsAtJob age ≤ 100) ∧
    (∀ s : ℚ, s ≤ 100 →
      CreditScoreCalculator.getRiskLevel s = "Very High" ∧
      CreditScoreCalculator.getScoreRating s = "Poor" ∧
      CreditScoreCalculator.getApprovalProbability s = 15 ∧
      ¬ (580 ≤ s)) ∧
    (∀ (strat : StrategyFn) (p : UserFinancialProfile),
      (p.validate).isValid = true → strat.score p ≤ 100 →
      CreditScoreCalculator.scoreResult strat p =
        ScoreResult.ok (strat.score p) ("Very High") ("Poor") strat.name
          (CreditScoreCalculator.getScoreBreakdown p (strat.score p))) := by
  refine ⟨?_, ?_, ?_, ?_, ?_⟩
  · intro income dti savingsRatio stability age
    unfold conservativeCore
    exact min_le_right _ _
  · intro income dti disposable stability netWorth
    unfold standardCore
    exact min_le_right _ _
  · intro income dti disposable employmentStatus yearsAtJob age
    unfold aggressiveCore
    exact min_le_right _ _
  · intro s hs
    exact ⟨riskLevel_of_le100 s hs, rating_of_le100 s hs,
      probability_of_le100 s hs, by linarith⟩
  · intro strat p hv hb
    unfold CreditScoreCalculator.scoreResult
    simp only [hv, if_true]
    rw [riskLevel_of_le100 _ hb, rating_of_le100 _ hb]

/-- Witness for C5: a concrete core evaluation stays at most 100 and a
concrete bounded score hits the bottom tiers. -/
theorem claim5_witness :
    conservativeCore 120000 10 35 90 40 ≤ 100 ∧
    CreditScoreCalculator.getRiskLevel 55 = "Very High" ∧
    CreditScoreCalculator.getScoreRating 55 = "Poor" ∧
    CreditScoreCalculator.getApprovalProbability 55 = 15 ∧
    ¬ ((580 : ℚ) ≤ 55) :=
  ⟨claim5_scale_mismatch.1 120000 10 35 90 40,
    (claim5_scale_mismatch.2.2.2.1 55 (by norm_num)).1,
    (claim5_scale_mismatch.2.2.2.1 55 (by norm_num)).2.1,
    (claim5_scale_mismatch.2.2.2.1 55 (by norm_num)).2.2.1,
    (claim5_scale_mismatch.2.2.2.1 55 (by norm_num)).2.2.2⟩

/-- Claim C2: on every profile that passes validation, and for every
strategy function standing in the open AI-Based slot, the decision
approves exactly when the score reaches 580 (the gate is inclusive: a
score of exactly 580 approves), and the confidence equals
getApprovalProbability of the score. -/
theorem claim2_decision_threshold (ai : StrategyFn) (p : UserFinancialProfile)
    (h : (p.validate).isValid = true) :
    ((LoanDecisionService.makeDecision ai p).approved = true ↔ 580 ≤ ai.score p) ∧
    (LoanDecisionService.makeDecision ai p).confidence =
      CreditScoreCalculator.getApprovalProbability (ai.score p) ∧
    (ai.score p = 580 → (LoanDecisionService.makeDecision ai p).approved = true) := by
  unfold LoanDecisionService.makeDecision
  unfold CreditScoreCalculator.scoreResult
  simp only [h, if_true]
  refine ⟨by simp, ?_, ?_⟩
  · trivial
  · intro he
    simp [he]

/-- Witness for C2: a concrete valid profile under a strategy that returns
exactly 580 is approved with confidence 30. -/
theorem claim2_witness :
    (LoanDecisionService.makeDecision { name := "AI-Based", score := fun _ => 580 }
      (UserFinancialProfile.mk 5000 1000 0 35 ("permanent") 5 10000)).approved = true ∧
    (LoanDecisionService.makeDecision { name := "AI-Based", score := fun _ => 580 }
      (UserFinancialProfile.mk 5000 1000 0 35 ("permanent") 5 10000)).confidence = 30 := by
  have h := claim2_decision_threshold { name := "AI-Based", score := fun _ => 580 }
    (UserFinancialProfile.mk 5000 1000 0 35 ("permanent") 5 10000) (by decide)
  refine ⟨h.2.2 rfl, ?_⟩
  rw [h.2.1]
  decide

/-- Claim C7 counterexample: on a concrete valid, approved profile the
first reason is the APPROVED summary, and that summary does not contain
the digits 580 anywhere, while the DENIED summary does - refuting the
claim that the prepended summary states the 580 threshold explicitly in
both outcomes. -/
theorem claim7_counterexample :
    (LoanDecisionService.makeDecision { name := "AI-Based", score := fun _ => 600 }
        (UserFinancialProfile.mk 5000 1000 0 35 ("permanent") 5 10000)).reasons.head? =
      some ("✅ Loan APPROVED - Credit score meets minimum requirements") ∧
    strContains ("✅ Loan APPROVED - Credit score meets minimum requirements")
      ("580") = false ∧
    strContains ("❌ Loan DENIED - Credit score below minimum threshold (580)")
      ("580") = true := by
  refine ⟨rfl, by decide, by decide⟩

/-- Claim C7 as amended: for every valid profile the summary reason is
prepended as the first element of reasons - the DENIED summary states the
580 threshold explicitly while the APPROVED summary does not repeat the
number - and a loan-to-income ratio above 4 always places the message
about a too-high loan amount among the negative factors. -/
theorem claim7_explanation_order (ai : StrategyFn) (p : UserFinancialProfile)
    (h : (p.validate).isValid = true) :
    ((LoanDecisionService.makeDecision ai p).reasons.head? =
      some (if 580 ≤ ai.score p then
          "✅ Loan APPROVED - Credit score meets minimum requirements"
        else "❌ Loan DENIED - Credit score below minimum threshold (580)")) ∧
    (4 < p.calculateLoanToIncomeRatio →
      "Loan amount too high relative to income" ∈
        ((LoanDecisionService.makeDecision ai p).negativeFactors.getD [])) := by
  unfold LoanDecisionService.makeDecision
  unfold CreditScoreCalculator.scoreResult
  simp only [h, if_true]
  constructor
  · unfold LoanDecisionService.generateExplanation
    by_cases hs : 580 ≤ ai.score p
    · simp [hs]
    · simp [hs]
  · intro hl
    unfold LoanDecisionService.generateExplanation
    simp only [Option.getD_some]
    simp [hl]

/-- Witness for C7 at a concrete valid profile whose loan-to-income ratio
is 25/6 > 4. -/
theorem claim7_witness :
    "Loan amount too high relative to income" ∈
      ((LoanDecisionService.makeDecision { name := "AI-Based", score := fun _ => 500 }
        (UserFinancialProfile.mk 1000 0 0 40 ("permanent") 3 50000)).negativeFactors.getD []) :=
  (claim7_explanation_order { name := "AI-Based", score := fun _ => 500 }
    (UserFinancialProfile.mk 1000 0 0 40 ("permanent") 3 50000) (by decide)).2
    (by norm_num [UserFinancialProfile.calculateLoanToIncomeRatio])

/-- Claim C8: the loan-amount factory picks Conservative from 500000 up,
Standard from 100000 up to below 500000, and Aggressive below 100000; the
by-name factory returns the matching strategy for each known name after
lower-casing, depends only on the lower-cased name (so the match is
case-insensitive), and falls back to Standard on any unknown name. -/
theorem claim8_factory (loanAmount : ℚ) (nm nm2 : String) :
    ((500000 ≤ loanAmount →
        ScoringStrategyFactory.getStrategy loanAmount = StrategyClass.conservative) ∧
      (100000 ≤ loanAmount → loanAmount < 500000 →
        ScoringStrategyFactory.getStrategy loanAmount = StrategyClass.standard) ∧
      (loanAmount < 100000 →
        ScoringStrategyFactory.getStrategy loanAmount = StrategyClass.aggressive)) ∧
    ((jsToLowerCase nm = "conservative" →
        ScoringStrategyFactory.getStrategyByName nm = StrategyClass.conservative) ∧
      (jsToLowerCase nm = "standard" →
        ScoringStrategyFactory.getStrategyByName nm = StrategyClass.standard) ∧
      (jsToLowerCase nm = "aggressive" →
        ScoringStrategyFactory.getStrategyByName nm = StrategyClass.aggressive)) ∧
    (jsToLowerCase nm = jsToLowerCase nm2 →
      ScoringStrategyFactory.getStrategyByName nm =
        ScoringStrategyFactory.getStrategyByName nm2) ∧
    (jsToLowerCase nm ≠ "conservative" → jsToLowerCase nm ≠ "standard" → jsToLowerCase nm ≠ "aggressive" →
      ScoringStrategyFactory.getStrategyByName nm = StrategyClass.standard) := by
  refine ⟨⟨?_, ?_, ?_⟩, ⟨?_, ?_, ?_⟩, ?_, ?_⟩
  · intro h1
    unfold ScoringStrategyFactory.getStrategy
    split_ifs <;> first | rfl | linarith
  · intro h1 h2
    unfold ScoringStrategyFactory.getStrategy
    split_ifs <;> first | rfl | linarith
  · intro h1
    unfold ScoringStrategyFactory.getStrategy
    split_ifs <;> first | rfl | linarith
  · intro h
    unfold ScoringStrategyFactory.getStrategyByName
    rw [h]
    decide
  · intro h
    unfold ScoringStrategyFactory.getStrategyByName
    rw [h]
    decide
  · intro h
    unfold ScoringStrategyFactory.getStrategyByName
    rw [h]
    decide
  · intro h
    unfold ScoringStrategyFactory.getStrategyByName
    rw [h]
  · intro h1 h2 h3
    unfold ScoringStrategyFactory.getStrategyByName
    simp [h1, h2, h3]

/-- Witness for C8 at concrete amounts and names: each known name - in
upper, mixed and lower case - yields its matching strategy, and an unknown
name yields Standard. -/
theorem claim8_witness :
    ScoringStrategyFactory.getStrategy 600000 = StrategyClass.conservative ∧
    ScoringStrategyFactory.getStrategy 200000 = StrategyClass.standard ∧
    ScoringStrategyFactory.getStrategy 5000 = StrategyClass.aggressive ∧
    ScoringStrategyFactory.getStrategyByName ("CONSERVATIVE") = StrategyClass.conservative ∧
    ScoringStrategyFactory.getStrategyByName ("Standard") = StrategyClass.standard ∧
    ScoringStrategyFactory.getStrategyByName ("aggressive") = StrategyClass.aggressive ∧
    ScoringStrategyFactory.getStrategyByName ("CONSERVATIVE") =
      ScoringStrategyFactory.getStrategyByName ("conservative") ∧
    ScoringStrategyFactory.getStrategyByName ("bogus") = StrategyClass.standard :=
  ⟨(claim8_factory 600000 ("x") ("y")).1.1 (by norm_num),
    (claim8_factory 200000 ("x") ("y")).1.2.1 (by norm_num) (by norm_num),
    (claim8_factory 5000 ("x") ("y")).1.2.2 (by norm_num),
    (claim8_factory 0 ("CONSERVATIVE") ("y")).2.1.1 (by decide),
    (claim8_factory 0 ("Standard") ("y")).2.1.2.1 (by decide),
    (claim8_factory 0 ("aggressive") ("y")).2.1.2.2 (by decide),
    (claim8_factory 0 ("CONSERVATIVE") ("conservative")).2.2.1 (by decide),
    (claim8_factory 0 ("bogus") ("y")).2.2.2 (by decide) (by decide) (by decide)⟩

/-- Claim C9: the interest-rate range and the maximum loan amount of the
decision service coincide with the tables stated by the spec - the range
tiers at 750/700/650/600, and the floored minimum of annual income times
the score multiplier and 36 months of disposable income. -/
theorem claim9_rates_maxloan (score : ℚ) (p : UserFinancialProfile) :
    LoanDecisionService.getInterestRateRange score = specInterestRateRange score ∧
    LoanDecisionService.getMaxLoanAmount p score = specMaxLoanAmount p score ∧
    (750 ≤ score →
      specInterestRateRange score = ((4.5 : ℚ), (6.5 : ℚ)) ∧ specScoreMultiplier score = 4) ∧
    (700 ≤ score → score < 750 →
      specInterestRateRange score = ((6.5 : ℚ), (8.5 : ℚ)) ∧
        specScoreMultiplier score = (3.5 : ℚ)) ∧
    (650 ≤ score → score < 700 →
      specInterestRateRange score = ((8.5 : ℚ), (11.5 : ℚ)) ∧ specScoreMultiplier score = 3) ∧
    (600 ≤ score → score < 650 →
      specInterestRateRange score = ((11.5 : ℚ), (14.5 : ℚ)) ∧
        specScoreMultiplier score = (2.5 : ℚ)) ∧
    (score < 600 →
      specInterestRateRange score = ((14.5 : ℚ), (18.5 : ℚ)) ∧ specScoreMultiplier score = 2) := by
  refine ⟨rfl, rfl, ?_, ?_, ?_, ?_, ?_⟩ <;>
    (intros
     unfold specInterestRateRange specScoreMultiplier
     split_ifs <;> first | exact ⟨rfl, rfl⟩ | linarith)

/-- Witness for C9 in the 700 tier, with a concrete profile whose
disposable-income cap binds: income 5000, expenses 1000, debts 1200 give
disposable income 3900, so the maximum is 3900 x 36 = 140400, below
60000 x 3.5. -/
theorem claim9_witness :
    LoanDecisionService.getInterestRateRange 720 = ((6.5 : ℚ), (8.5 : ℚ)) ∧
    LoanDecisionService.getMaxLoanAmount
      (UserFinancialProfile.mk 5000 1000 1200 40 ("permanent") 5 10000) 720 = 140400 := by
  have h := claim9_rates_maxloan 720
    (UserFinancialProfile.mk 5000 1000 1200 40 ("permanent") 5 10000)
  constructor
  · rw [h.1]
    exact (h.2.2.2.1 (by norm_num) (by norm_num)).1
  · rw [h.2.1]
    norm_num [specMaxLoanAmount, specScoreMultiplier,
      UserFinancialProfile.calculateDisposableIncome]

/-- Claim C10 counterexample: with a calculator configured with a
Conservative strategy, calculateAllScores leaves the configured strategy
set to the AI-Based entry of its comparison list - the configured strategy
did change, refuting the claim that no scoring operation changes it. -/
theorem claim10_counterexample :
    ((CreditScoreCalculator.calculateAllScores
        { name := "Conservative", score := fun _ => 10 }
        { name := "Balanced", score := fun _ => 20 }
        { name := "Aggressive", score := fun _ => 30 }
        { name := "AI-Based", score := fun _ => 40 }
        { strategy := { name := "Conservative", score := fun _ => 10 } }
        (UserFinancialProfile.mk 4000 1000 0 30 ("permanent") 4 20000)).2).strategy.name =
      "AI-Based" ∧
    ("AI-Based" : String) ≠ "Conservative" := by
  exact ⟨rfl, by decide⟩

/-- Claim C10 as amended: calculateScore run twice on an unchanged profile
returns identical results and leaves the calculator state untouched; but
calculateAllScores does change the configured strategy - it always leaves
the calculator holding the last strategy of its comparison list, the
AI-Based one, whatever was configured before. -/
theorem claim10_state_effects (c : CreditScoreCalculator) (p : UserFinancialProfile)
    (cons bal aggr ai : StrategyFn) :
    (c.calculateScore p).2 = c ∧
    (((c.calculateScore p).2).calculateScore p).1 = (c.calculateScore p).1 ∧
    (CreditScoreCalculator.calculateAllScores cons bal aggr ai c p).2 =
      { strategy := ai } := by
  exact ⟨rfl, rfl, rfl⟩
